import Mathlib

/-!
Verification of the Learning-Agent exam module against its specification.

The definitions below are a shallow embedding of the repository's code:
* `ExamsController` (backend/src/modules/exams/infrastructure/http/exams.controller.ts):
  `sumDistribution`, `create`, `generate` (with its kind-grouping of generated
  questions), `getExamById`, and `quickSave` (id normalisation, first-course
  fallback).
* The client exam wizard (`ExamForm`): `validateAttempts`, `validStep`,
  the step transitions of `onSubmit` / the `Siguiente` / `Anterior` buttons.
* The client AI request builders (`ExamCreatePage.tsx`):
  `buildAiInputFromForm`, `onRegenerateOne`.

JavaScript numbers are modelled as rationals (`ℚ`), JS `undefined` as
`Option`, JS string truthiness as "not the empty string".  HTTP responses
are abstracted to their kind plus message, which is all the envelope
helpers of `http.handler` distinguish.
-/

namespace LearningAgent

/-- Outcome kind of an HTTP response, abstracting the `responseSuccess`,
`responseBadRequest`, `responseForbidden`, `responseNotFound`,
`responseInternalServerError` helpers of `http.handler`. -/
inductive Resp where
  | success (msg : String)
  | badRequest (msg : String)
  | forbidden (msg : String)
  | notFound (msg : String)
  | internalError (msg : String)
deriving DecidableEq, Repr

/-- JS truthiness of an optional string (`undefined`, `null` and `''` are
falsy). -/
def truthyOpt : Option String → Bool
  | none => false
  | some s => !(s == "")

/-- The `distribution` record of the exam DTOs: one requested count per
question kind.  Fields are optional because `sumDistribution` guards each
with `?? 0`. -/
structure Distribution where
  multiple_choice : Option ℚ
  true_false : Option ℚ
  open_analysis : Option ℚ
  open_exercise : Option ℚ
deriving DecidableEq, Repr

/-- `sumDistribution` (exams.controller.ts lines 27–33): `0` when no
distribution is supplied, otherwise the sum of the four counts with missing
fields counting `0`. -/
def sumDistribution : Option Distribution → ℚ
  | none => 0
  | some d =>
      d.multiple_choice.getD 0 + d.true_false.getD 0
        + d.open_analysis.getD 0 + d.open_exercise.getD 0

/-- The `CreateExamDto` body of `POST /api/exams`. -/
structure CreateExamDto where
  subject : String
  difficulty : String
  attempts : ℚ
  totalQuestions : ℚ
  timeMinutes : ℚ
  reference : Option String
  distribution : Option Distribution
deriving DecidableEq, Repr

/-- The `GenerateQuestionsDto` body of `POST /api/exams/questions`. -/
structure GenerateQuestionsDto where
  subject : String
  difficulty : String
  totalQuestions : ℚ
  reference : Option String
  distribution : Option Distribution
deriving DecidableEq, Repr

/-- `ExamsController.create` (lines 49–74): the response, paired with
whether `createExamHandler.execute` was invoked (i.e. whether anything was
persisted). -/
def create (dto : CreateExamDto) : Resp × Bool :=
  if dto.totalQuestions ≤ 0 then
    (.badRequest "totalQuestions debe ser > 0.", false)
  else if sumDistribution dto.distribution ≠ dto.totalQuestions then
    (.badRequest "La suma de distribution debe ser igual a totalQuestions.", false)
  else
    (.success "Exam created successfully", true)

/-- A generated question as the controller sees it: an object carrying a
`type` tag (compared against the four kind strings) and its payload. -/
structure GenQuestion where
  qtype : String
  text : String
deriving DecidableEq, Repr

/-- The grouped payload `{ multiple_choice, true_false, open_analysis,
open_exercise }` returned by `ExamsController.generate`. -/
structure GroupedQuestions where
  multiple_choice : List GenQuestion
  true_false : List GenQuestion
  open_analysis : List GenQuestion
  open_exercise : List GenQuestion
deriving DecidableEq, Repr

/-- The grouping step of `ExamsController.generate` (lines 98–103): four
`filter`s of the flat collaborator output on the `type` tag. -/
def groupQuestions (flat : List GenQuestion) : GroupedQuestions where
  multiple_choice := flat.filter (fun q => q.qtype == "multiple_choice")
  true_false := flat.filter (fun q => q.qtype == "true_false")
  open_analysis := flat.filter (fun q => q.qtype == "open_analysis")
  open_exercise := flat.filter (fun q => q.qtype == "open_exercise")

/-- `ExamsController.generate` (lines 76–106): the response, whether
`generateQuestionsHandler.execute` (the generation collaborator) was
invoked, and on success the grouped payload built from the collaborator's
flat output `flat`. -/
def generate (dto : GenerateQuestionsDto) (flat : List GenQuestion) :
    Resp × Bool × Option GroupedQuestions :=
  if dto.totalQuestions ≤ 0 then
    (.badRequest "totalQuestions debe ser > 0.", false, none)
  else if sumDistribution dto.distribution ≠ dto.totalQuestions then
    (.badRequest "La suma de distribution debe ser igual a totalQuestions.", false, none)
  else
    (.success "Questions generated successfully", true, some (groupQuestions flat))

/-! ### Get exam by id (`GET /api/exams/:examId`) -/

/-- JS `s.includes(pat)`: `pat` occurs as a contiguous substring of `s`. -/
def includes (s pat : String) : Bool := decide (pat.toList <:+: s.toList)

/-- An exam row as far as ownership is concerned. -/
structure ExamRecord where
  id : String
  teacherId : String
deriving DecidableEq, Repr

/-- Modelled from the spec: `GetExamByIdUseCase.execute` is code of this
repository that is not under src/ (only its import and call site in the
controller are).  Per spec §4.5 and §7 it throws `Examen no encontrado`
when no exam with the given id exists, throws `Acceso no autorizado` when
the exam exists but belongs to a different teacher, and returns the exam
otherwise. -/
def getExamByIdUseCase (db : List ExamRecord) (examId teacherId : String) :
    Except String ExamRecord :=
  match db.find? (fun e => e.id == examId) with
  | none => .error "Examen no encontrado"
  | some e =>
      if e.teacherId == teacherId then .ok e else .error "Acceso no autorizado"

/-- The catch-classification of `ExamsController.getExamById`
(lines 157–166): dispatch on the thrown message text. -/
def classifyGetExamError (msg : String) : Resp :=
  if includes msg "Acceso no autorizado" then .forbidden "Acceso no autorizado"
  else if includes msg "Examen no encontrado" then .notFound "Examen no encontrado"
  else .internalError "Error interno"

/-- `ExamsController.getExamById` (lines 147–167); `userSub` is
`req.user?.sub` (absent or empty is falsy). -/
def getExamById (db : List ExamRecord) (userSub : Option String)
    (examId : String) : Resp :=
  if truthyOpt userSub = false then .forbidden "Acceso no autorizado"
  else
    match getExamByIdUseCase db examId (userSub.getD "") with
    | .ok _ => .success "Examen recuperado"
    | .error msg => classifyGetExamError msg

/-! ### JS number coercion

`Number(s)` of the host language, embedded on the decimal fragment the
form fields can produce: an optional `-` sign followed by digits with at
most one decimal point (at least one digit overall) denotes the obvious
rational, the empty string denotes `0`, and anything else is `NaN`
(`none`). -/

/-- Numeric value of a decimal digit. -/
def digitVal (c : Char) : ℕ := c.toNat - '0'.toNat

/-- Value of a digit string read as an integer (most significant first). -/
def digitsVal (cs : List Char) : ℕ := cs.foldl (fun a c => 10 * a + digitVal c) 0

/-- Parse an unsigned decimal numeral: digits, optionally split by one
decimal point, with at least one digit overall.  The fractional digits
contribute their value divided by the matching power of ten. -/
def parseUnsigned (cs : List Char) : Option ℚ :=
  let intPart := cs.takeWhile (fun c => c.isDigit)
  let rest := cs.dropWhile (fun c => c.isDigit)
  match rest with
  | [] => if intPart.isEmpty then none else some (digitsVal intPart)
  | '.' :: frac =>
      if frac.all (fun c => c.isDigit) && !(intPart.isEmpty && frac.isEmpty) then
        some ((digitsVal intPart : ℚ) + (digitsVal frac : ℚ) / (10 : ℚ) ^ frac.length)
      else none
  | _ => none

/-- JS `Number(s)` on the decimal fragment; `none` is `NaN`. -/
def jsNumber (s : String) : Option ℚ :=
  match s.toList with
  | [] => some 0
  | '-' :: rest => (parseUnsigned rest).map (fun q => -q)
  | cs => parseUnsigned cs

/-- JS `Number(x ?? 0) || 0`: a missing field, a non-numeric string and a
zero all come out as `0`. -/
def numOrZero : Option String → ℚ
  | none => 0
  | some s => (jsNumber s).getD 0

/-! ### The client wizard (`ExamForm`, src/unnamed/part_001) -/

/-- `validateAttempts` of `ExamForm` (part_001 lines 234–246). -/
def validateAttempts (value : String) : String :=
  if value == "" || (jsNumber value).isNone then
    "Debes ingresar un número de intentos."
  else
    let num := (jsNumber value).getD 0
    if num < 1 then "El número de intentos debe ser al menos 1."
    else if num > 3 then "El número de intentos no puede ser mayor a 3."
    else ""

/-- The form fields of the wizard (`values` state of `ExamForm`), together
with the `errors.timeMinutes` entry that `validStep` consults at step 2. -/
structure FormValues where
  subject : String
  difficulty : String
  attempts : String
  multipleChoice : String
  trueFalse : String
  analysis : String
  openEnded : String
  timeMinutes : ℚ
  reference : String
  errTimeMinutes : String
deriving DecidableEq, Repr

/-- Modelled from the spec: `useExamForm.getTotalQuestions` is code of this
repository that is not under src/ (the hook `useExamForm.ts` is only
imported).  Per spec §4.7, step 1 of the wizard gates on the total question
count, the sum of the four per-kind count fields, each read as a number
with blank or non-numeric fields counting 0. -/
def getTotalQuestions (v : FormValues) : ℚ :=
  (jsNumber v.multipleChoice).getD 0 + (jsNumber v.trueFalse).getD 0
    + (jsNumber v.analysis).getD 0 + (jsNumber v.openEnded).getD 0

/-- `validStep` of `ExamForm` (part_001 lines 146–156).  The `step === 2`
branch and the trailing `return` have the same body and are merged. -/
def validStep (step : ℕ) (v : FormValues) : Bool :=
  if step = 0 then
    (!(v.subject == "") && !(v.difficulty == "") && !(v.attempts == ""))
      && (validateAttempts v.attempts == "")
  else if step = 1 then decide (0 < getTotalQuestions v)
  else
    !(v.timeMinutes == 0) && (v.errTimeMinutes == "")

/-- Modelled from the spec: `useExamForm.validate` (reached through
`touchAndValidate`, part_001 lines 140–144) is code of this repository
that is not under src/.  Spec §2 and §4.7 describe the wizard's navigation
as gated per step by the `validStep` conditions, so the submission gate is
modelled as the gate of the active step. -/
def touchAndValidate (step : ℕ) (v : FormValues) : Bool := validStep step v

/-- Wizard state: the `step` counter (`useState(0)`) and the form values. -/
structure WizardState where
  step : ℕ
  values : FormValues
deriving DecidableEq, Repr

/-- The user interactions of `ExamForm` that can touch the wizard step:
the `Siguiente` button (rendered only below step 2, part_001 lines
700–711), the `Anterior` button (rendered only above step 0, lines
681–685), a form submission (`onSubmit`, lines 210–232), and a field edit
(`onChange`, which never writes `step`). -/
inductive WizardEvent where
  | siguiente
  | anterior
  | submitForm
  | edit (v : FormValues)
deriving DecidableEq, Repr

/-- The step transition of `ExamForm` under one interaction. -/
def wizardStep (s : WizardState) : WizardEvent → WizardState
  | .siguiente =>
      if s.step < 2 ∧ validStep s.step s.values = true then
        { s with step := s.step + 1 }
      else s
  | .anterior =>
      if 0 < s.step then { s with step := s.step - 1 } else s
  | .submitForm =>
      if touchAndValidate s.step s.values = false then s
      else if s.step < 2 then { s with step := s.step + 1 }
      else s
  | .edit v => { s with values := v }

/-- `useState(0)`: the wizard starts at step 0. -/
def initialStep : ℕ := 0

/-! ### Quick-save (`POST /api/exams/quick-save`) -/

/-- An incoming quick-save question, before normalisation. -/
structure RawQuestion where
  id : Option String
  qtype : Option String
  text : Option String
deriving DecidableEq, Repr

/-- The synthesized identity `q_${ts}_${t}_${i}` of quickSave line 222. -/
def synthId (ts : ℕ) (t : String) (i : ℕ) : String :=
  "q_" ++ toString ts ++ "_" ++ t ++ "_" ++ toString i

/-- If `p` implies `q` but some member of `l` satisfies `q` and not `p`,
then `p` holds strictly less often on `l` than `q`. -/
theorem countP_lt_of_mem {α : Type} {p q : α → Bool} :
    ∀ {l : List α} (x : α), x ∈ l → q x = true → p x = false →
      (∀ a, p a = true → q a = true) → l.countP p < l.countP q := by
  intro l
  induction l with
  | nil => intro x hx; cases hx
  | cons y ys ih =>
    intro x hx hq hp himp
    have hmono : ys.countP p ≤ ys.countP q :=
      List.countP_mono_left (fun a _ ha => himp a ha)
    rcases List.mem_cons.mp hx with rfl | hmem
    · rw [List.countP_cons_of_neg _ _ (by simp [hp]),
        List.countP_cons_of_pos _ _ hq]
      omega
    · have hlt := ih x hmem hq hp himp
      by_cases hpy : p y = true
      · rw [List.countP_cons_of_pos _ _ hpy,
          List.countP_cons_of_pos _ _ (himp y hpy)]
        omega
      · rw [List.countP_cons_of_neg _ _ (by simp [hpy])]
        by_cases hqy : q y = true
        · rw [List.countP_cons_of_pos _ _ hqy]; omega
        · rw [List.countP_cons_of_neg _ _ (by simp [hqy])]; omega

/-- The collision loop strictly shrinks the number of used ids at least as
long as the candidate. -/
theorem freshen_measure_lt (suf : ℕ → String) (used : List String)
    (id : String) (k : ℕ) (h : id ∈ used) :
    used.countP (fun s => decide ((id ++ "_" ++ suf k).length ≤ s.length)) <
      used.countP (fun s => decide (id.length ≤ s.length)) := by
  have hu : ("_" : String).length = 1 := by decide
  have hlen : id.length < (id ++ "_" ++ suf k).length := by
    rw [String.length_append, String.length_append, hu]; omega
  refine countP_lt_of_mem id h (by simp) ?_ ?_
  · simp only [decide_eq_false_iff_not, Nat.not_le]; omega
  · intro a ha
    simp only [decide_eq_true_eq] at ha ⊢; omega

/-- The `while (used.has(id))` collision-resolution loop of
`ExamsController.quickSave` (line 223): while the candidate id is taken,
append `_` plus the next random suffix
(`Math.random().toString(36).slice(2,6)`, modelled as an arbitrary stream
`suf` consumed at counter `k`).  Returns the final id together with the
next unused counter. -/
def freshen (suf : ℕ → String) (used : List String) (id : String) (k : ℕ) :
    String × ℕ :=
  if h : id ∈ used then freshen suf used (id ++ "_" ++ suf k) (k + 1)
  else (id, k)
termination_by used.countP (fun s => decide (id.length ≤ s.length))
decreasing_by exact freshen_measure_lt suf used id k h

/-- The question-normalisation loop of `ExamsController.quickSave`
(lines 218–231), projected to the identities it assigns: `used` holds the
identities taken so far, `i` is the map index, `k` the random-stream
counter, `ts` the `Date.now()` timestamp. -/
def normalizeQs (suf : ℕ → String) (ts : ℕ) :
    List String → ℕ → ℕ → List RawQuestion → List String
  | _, _, _, [] => []
  | used, i, k, q :: qs =>
    let t := q.qtype.getD "open_analysis"
    let base := q.id.getD (synthId ts t i)
    let idk := freshen suf used base k
    idk.1 :: normalizeQs suf ts (idk.1 :: used) (i + 1) idk.2 qs

/-- A course row, as selected by the quick-save fallback query. -/
structure Course where
  id : String
  teacherId : String
  createdAt : ℕ
deriving DecidableEq, Repr

/-- `prisma.course.findFirst({orderBy: {createdAt: 'asc'}})`: the first
course by creation timestamp (among equal timestamps, the earlier row). -/
def findFirstByCreatedAt : List Course → Option Course
  | [] => none
  | c :: cs =>
      match findFirstByCreatedAt cs with
      | none => some c
      | some best => if c.createdAt ≤ best.createdAt then some c else some best

/-- The `content` field of a quick-save body, when it is an object. -/
structure ContentObj where
  questions : Option (List RawQuestion)
deriving DecidableEq, Repr

/-- The loosely-shaped body of `POST /api/exams/quick-save`. -/
structure QuickSaveBody where
  title : Option String
  courseId : Option String
  teacherId : Option String
  questions : Option (List RawQuestion)
  content : Option ContentObj
  subject : Option String
  difficulty : Option String
deriving DecidableEq, Repr

/-- What quickSave persists as `content`: the body's own `content` object
verbatim when one was supplied, otherwise the synthesized blob carrying
the normalized question identities. -/
inductive PersistedContent where
  | verbatim (c : ContentObj)
  | built (subject difficulty : String) (createdAt : ℕ)
      (questionIds : List String)
deriving DecidableEq, Repr

/-- The question identities present in the persisted content. -/
def persistedIds : PersistedContent → List (Option String)
  | .verbatim c => (c.questions.getD []).map (fun q => q.id)
  | .built _ _ _ ids => ids.map some

/-- The record written by `prisma.savedExam.create`. -/
structure SavedExamData where
  title : String
  status : String
  content : PersistedContent
  courseId : String
  teacherId : Option String
deriving DecidableEq, Repr

/-- `ExamsController.quickSave` (lines 185–253): `db` is the course table,
`suf` the stream of random suffixes, `ts` is `Date.now()`, `now` the
timestamp written into the synthesized content.  Returns the HTTP response
and the record persisted (`none` when nothing was written). -/
def quickSave (db : List Course) (suf : ℕ → String) (ts : ℕ) (now : ℕ)
    (body : QuickSaveBody) : Resp × Option SavedExamData :=
  let title := body.title.getD "Examen"
  let resolved : Option (String × Option String) :=
    if truthyOpt body.courseId then some (body.courseId.getD "", body.teacherId)
    else
      match findFirstByCreatedAt db with
      | none => none
      | some firstCourse =>
          some (firstCourse.id,
            if truthyOpt body.teacherId = false ∧ firstCourse.teacherId ≠ "" then
              some firstCourse.teacherId
            else body.teacherId)
  match resolved with
  | none =>
      (.badRequest
        "No hay courseId y no existe ningún Curso en la base. Crea un curso o envía courseId.",
        none)
  | some (courseId, teacherId) =>
    let rawQuestions :=
      match body.questions with
      | some qs => qs
      | none =>
        match body.content with
        | some c => c.questions.getD []
        | none => []
    let qids := normalizeQs suf ts [] 0 0 rawQuestions
    let content : PersistedContent :=
      match body.content with
      | some c => .verbatim c
      | none =>
          .built (body.subject.getD "Tema general")
            (body.difficulty.getD "medio") now qids
    let data : SavedExamData :=
      { title := title, status := "Guardado", content := content
        courseId := courseId
        teacherId := if truthyOpt teacherId then teacherId else none }
    (.success "Quick exam saved", some data)

/-! ### The client AI request builders (`ExamCreatePage.tsx`) -/

/-- The TS union type of `GeneratedQuestion.type` on the client. -/
inductive QKind where
  | multiple_choice
  | true_false
  | open_analysis
  | open_exercise
deriving DecidableEq, Repr

/-- The raw form snapshot fed to `buildAiInputFromForm`. -/
structure RawForm where
  subject : Option String
  topic : Option String
  difficulty : Option String
  multipleChoice : Option String
  trueFalse : Option String
  analysis : Option String
  openEnded : Option String
  reference : Option String
deriving DecidableEq, Repr

/-- The `difficultyMap` lookup of `buildAiInputFromForm`
(ExamCreatePage.tsx lines 36–40). -/
def difficultyMap (k : String) : Option String :=
  if k = "facil" ∨ k = "fácil" ∨ k = "easy" then some "fácil"
  else if k = "medio" ∨ k = "media" ∨ k = "medium" then some "medio"
  else if k = "dificil" ∨ k = "difícil" ∨ k = "hard" then some "difícil"
  else none

/-- The AI-generation request the client builds. -/
structure AiInput where
  subject : String
  difficulty : String
  totalQuestions : ℚ
  reference : String
  distribution : Distribution
  language : String
deriving DecidableEq, Repr

/-- `buildAiInputFromForm` (ExamCreatePage.tsx lines 35–63). -/
def buildAiInputFromForm (raw : RawForm) : AiInput :=
  let difficultyKey := (raw.difficulty.getD "medio").toLower
  let difficulty := (difficultyMap difficultyKey).getD "medio"
  let distribution : Distribution :=
    { multiple_choice := some (numOrZero raw.multipleChoice)
      true_false := some (numOrZero raw.trueFalse)
      open_analysis := some (numOrZero raw.analysis)
      open_exercise := some (numOrZero raw.openEnded) }
  { subject := raw.subject.getD (raw.topic.getD "Tema general")
    difficulty := difficulty
    totalQuestions := numOrZero raw.multipleChoice + numOrZero raw.trueFalse
      + numOrZero raw.analysis + numOrZero raw.openEnded
    reference := raw.reference.getD ""
    distribution := distribution
    language := "es" }

/-- The single-question regeneration request of `onRegenerateOne`
(ExamCreatePage.tsx lines 126–150): the base form request with
`totalQuestions := 1` and a one-hot distribution at the question's kind. -/
def regenerateOneDto (raw : RawForm) (t : QKind) : AiInput :=
  let base := buildAiInputFromForm raw
  { base with
    totalQuestions := 1
    distribution :=
      { multiple_choice := some (if t = QKind.multiple_choice then 1 else 0)
        true_false := some (if t = QKind.true_false then 1 else 0)
        open_analysis := some (if t = QKind.open_analysis then 1 else 0)
        open_exercise := some (if t = QKind.open_exercise then 1 else 0) } }

/-! ## Helper lemmas -/

/-- Kind buckets built by `filter` on the `type` tag: a sublist of the
input (hence in the original relative order) whose members are exactly the
questions carrying that kind, multiplicities included. -/
theorem bucket_spec (k : String) (flat : List GenQuestion) :
    (flat.filter (fun q => q.qtype == k)).Sublist flat ∧
      (∀ q, q ∈ flat.filter (fun q => q.qtype == k) ↔ q ∈ flat ∧ q.qtype = k) ∧
      ∀ q, (flat.filter (fun q => q.qtype == k)).count q =
        if q.qtype = k then flat.count q else 0 := by
  refine ⟨List.filter_sublist _, ?_, ?_⟩
  · intro q
    simp [List.mem_filter]
  · intro q
    by_cases hq : q.qtype = k
    · rw [if_pos hq]
      apply List.count_filter
      simp [hq]
    · rw [if_neg hq]
      rw [List.count_eq_zero]
      simp [List.mem_filter, hq]

/-! ## Example requests used as concrete inputs -/

/-- The spec §8 example: `totalQuestions = 5` with distribution summing 6. -/
def mismatchCreateDto : CreateExamDto :=
  { subject := "Algoritmica 1", difficulty := "medio", attempts := 1
    totalQuestions := 5, timeMinutes := 45, reference := none
    distribution := some ⟨some 2, some 1, some 1, some 2⟩ }

/-- A generation request with distribution summing 4 against total 5. -/
def mismatchGenerateDto : GenerateQuestionsDto :=
  { subject := "Algoritmica 1", difficulty := "medio", totalQuestions := 5
    reference := none, distribution := some ⟨some 2, some 1, some 1, some 0⟩ }

/-- A create request with `totalQuestions = 0` whose distribution also sums
to 0 (so only the first check can reject it). -/
def zeroTotalCreateDto : CreateExamDto :=
  { subject := "Algoritmica 1", difficulty := "medio", attempts := 1
    totalQuestions := 0, timeMinutes := 45, reference := none
    distribution := some ⟨some 0, some 0, some 0, some 0⟩ }

/-- A generation request with `totalQuestions = -1`. -/
def negTotalGenerateDto : GenerateQuestionsDto :=
  { subject := "Algoritmica 1", difficulty := "medio", totalQuestions := -1
    reference := none, distribution := none }

/-- A create request with a positive total and no distribution at all. -/
def noDistributionCreateDto : CreateExamDto :=
  { subject := "Algoritmica 1", difficulty := "medio", attempts := 1
    totalQuestions := 1, timeMinutes := 45, reference := none
    distribution := none }

/-! ## Claims -/

/-- C1: for every create-exam request and every generate-questions request
whose distribution counts do not sum to `totalQuestions`, the controller
returns a bad-request response and does not invoke the create handler or
the generation collaborator (no persistence, no collaborator call). -/
theorem create_generate_reject_distribution_mismatch
    (c : CreateExamDto) (g : GenerateQuestionsDto) (flat : List GenQuestion)
    (hc : sumDistribution c.distribution ≠ c.totalQuestions)
    (hg : sumDistribution g.distribution ≠ g.totalQuestions) :
    (∃ m, create c = (Resp.badRequest m, false)) ∧
      ∃ m, generate g flat = (Resp.badRequest m, false, none) := by
  constructor
  · by_cases h : c.totalQuestions ≤ 0
    · exact ⟨"totalQuestions debe ser > 0.", by simp [create, h]⟩
    · exact ⟨"La suma de distribution debe ser igual a totalQuestions.",
        by simp [create, h, hc]⟩
  · by_cases h : g.totalQuestions ≤ 0
    · exact ⟨"totalQuestions debe ser > 0.", by simp [generate, h]⟩
    · exact ⟨"La suma de distribution debe ser igual a totalQuestions.",
        by simp [generate, h, hg]⟩

/-- C1 witness: the spec §8 sum-6-vs-total-5 example and a sum-4-vs-total-5
generation request are both rejected without a handler call. -/
theorem create_generate_reject_distribution_mismatch_witness :
    (∃ m, create mismatchCreateDto = (Resp.badRequest m, false)) ∧
      ∃ m, generate mismatchGenerateDto [] = (Resp.badRequest m, false, none) :=
  create_generate_reject_distribution_mismatch mismatchCreateDto
    mismatchGenerateDto []
    (by norm_num [mismatchCreateDto, sumDistribution])
    (by norm_num [mismatchGenerateDto, sumDistribution])

/-- C2: for every create-exam request and every generate-questions request
with `totalQuestions ≤ 0`, the controller returns the bad-request response
of the total check without calling the handler, whatever the distribution
(including one whose sum equals `totalQuestions`). -/
theorem create_generate_reject_nonpositive_total
    (c : CreateExamDto) (g : GenerateQuestionsDto) (flat : List GenQuestion)
    (hc : c.totalQuestions ≤ 0) (hg : g.totalQuestions ≤ 0) :
    create c = (Resp.badRequest "totalQuestions debe ser > 0.", false) ∧
      generate g flat =
        (Resp.badRequest "totalQuestions debe ser > 0.", false, none) :=
  ⟨by simp [create, hc], by simp [generate, hg]⟩

/-- C2 witness: a total of 0 with an all-zero distribution (sum equal to
the total) and a total of −1 are both rejected by the total check. -/
theorem create_generate_reject_nonpositive_total_witness :
    create zeroTotalCreateDto =
        (Resp.badRequest "totalQuestions debe ser > 0.", false) ∧
      generate negTotalGenerateDto [] =
        (Resp.badRequest "totalQuestions debe ser > 0.", false, none) :=
  create_generate_reject_nonpositive_total zeroTotalCreateDto
    negTotalGenerateDto []
    (by norm_num [zeroTotalCreateDto])
    (by norm_num [negTotalGenerateDto])

/-- C3 counterexample: a create request with `totalQuestions = 1` and no
distribution does not pass validation and is not persisted — the missing
distribution sums to 0, so the controller rejects with the sum-mismatch
message and never invokes the create handler, contradicting the claim that
validation passes and the exam is persisted. -/
theorem create_missing_distribution_cex :
    create noDistributionCreateDto =
      (Resp.badRequest "La suma de distribution debe ser igual a totalQuestions.",
        false) := by
  norm_num [create, noDistributionCreateDto, sumDistribution]

/-- C3 amended: the distribution is effectively mandatory for create-exam;
for every create request with `totalQuestions > 0` and no distribution
supplied, the missing distribution counts as sum 0, so the controller
returns the sum-mismatch bad-request response and does not invoke the
create handler. -/
theorem create_missing_distribution_rejected (c : CreateExamDto)
    (hpos : 0 < c.totalQuestions) (hnone : c.distribution = none) :
    create c =
      (Resp.badRequest "La suma de distribution debe ser igual a totalQuestions.",
        false) := by
  have h1 : ¬ c.totalQuestions ≤ 0 := not_le.mpr hpos
  have h2 : sumDistribution c.distribution ≠ c.totalQuestions := by
    rw [hnone]
    simpa [sumDistribution] using ne_of_lt hpos
  simp [create, h1, h2]

/-- C3 amended witness: the total-1, no-distribution request is rejected. -/
theorem create_missing_distribution_rejected_witness :
    create noDistributionCreateDto =
      (Resp.badRequest "La suma de distribution debe ser igual a totalQuestions.",
        false) :=
  create_missing_distribution_rejected noDistributionCreateDto
    (by norm_num [noDistributionCreateDto]) rfl

/-- C5: the generate-questions grouping sends a flat collaborator sequence
to four buckets keyed by kind; each bucket is a sublist of the flat
sequence (original relative order) containing exactly the questions of its
kind, multiplicities included. -/
theorem generate_groups_by_kind (flat : List GenQuestion) :
    ((groupQuestions flat).multiple_choice.Sublist flat ∧
      (∀ q, q ∈ (groupQuestions flat).multiple_choice ↔
        q ∈ flat ∧ q.qtype = "multiple_choice") ∧
      ∀ q, (groupQuestions flat).multiple_choice.count q =
        if q.qtype = "multiple_choice" then flat.count q else 0) ∧
    ((groupQuestions flat).true_false.Sublist flat ∧
      (∀ q, q ∈ (groupQuestions flat).true_false ↔
        q ∈ flat ∧ q.qtype = "true_false") ∧
      ∀ q, (groupQuestions flat).true_false.count q =
        if q.qtype = "true_false" then flat.count q else 0) ∧
    ((groupQuestions flat).open_analysis.Sublist flat ∧
      (∀ q, q ∈ (groupQuestions flat).open_analysis ↔
        q ∈ flat ∧ q.qtype = "open_analysis") ∧
      ∀ q, (groupQuestions flat).open_analysis.count q =
        if q.qtype = "open_analysis" then flat.count q else 0) ∧
    ((groupQuestions flat).open_exercise.Sublist flat ∧
      (∀ q, q ∈ (groupQuestions flat).open_exercise ↔
        q ∈ flat ∧ q.qtype = "open_exercise") ∧
      ∀ q, (groupQuestions flat).open_exercise.count q =
        if q.qtype = "open_exercise" then flat.count q else 0) :=
  ⟨bucket_spec "multiple_choice" flat, bucket_spec "true_false" flat,
    bucket_spec "open_analysis" flat, bucket_spec "open_exercise" flat⟩

/-- The exam table used as concrete input: one exam owned by teacher tA. -/
def examsDbEx : List ExamRecord := [⟨"e1", "tA"⟩]

/-- C4: get-exam-by-id responds 403 when the caller identity is missing,
403 when the exam exists but is owned by a different teacher, 404 when no
exam with the id exists; the two failure kinds are distinct response
constructors, never conflated; and the classification is by the thrown
message text, any other message giving the 500 response. -/
theorem getExamById_classification
    (db : List ExamRecord) (examId : String) (u : Option String) :
    (truthyOpt u = false →
      getExamById db u examId = Resp.forbidden "Acceso no autorizado") ∧
    (∀ sub e, u = some sub → truthyOpt u = true →
      db.find? (fun r => r.id == examId) = some e → e.teacherId ≠ sub →
      getExamById db u examId = Resp.forbidden "Acceso no autorizado") ∧
    (truthyOpt u = true → db.find? (fun r => r.id == examId) = none →
      getExamById db u examId = Resp.notFound "Examen no encontrado") ∧
    (∀ m₁ m₂, Resp.forbidden m₁ ≠ Resp.notFound m₂) ∧
    (∀ msg, includes msg "Acceso no autorizado" = false →
      includes msg "Examen no encontrado" = false →
      classifyGetExamError msg = Resp.internalError "Error interno") := by
  have hincA : includes "Acceso no autorizado" "Acceso no autorizado" = true := by
    decide
  have hincB : includes "Examen no encontrado" "Acceso no autorizado" = false := by
    decide
  have hincC : includes "Examen no encontrado" "Examen no encontrado" = true := by
    decide
  refine ⟨?_, ?_, ?_, ?_, ?_⟩
  · intro h
    simp [getExamById, h]
  · intro sub e hu ht hf hne
    subst hu
    have huse : getExamByIdUseCase db examId sub
        = Except.error "Acceso no autorizado" := by
      unfold getExamByIdUseCase
      rw [hf]
      simp [hne]
    simp [getExamById, ht, huse, classifyGetExamError, hincA]
  · intro ht hf
    rcases u with _ | sub
    · simp [truthyOpt] at ht
    · have huse : getExamByIdUseCase db examId sub
          = Except.error "Examen no encontrado" := by
        unfold getExamByIdUseCase
        rw [hf]
      simp [getExamById, ht, huse, classifyGetExamError, hincB, hincC]
  · intro m₁ m₂ h
    exact Resp.noConfusion h
  · intro msg h1 h2
    simp [classifyGetExamError, h1, h2]

/-- C4 witness: on a table holding one exam e1 owned by tA — no identity
gives 403, identity tB on e1 gives 403, identity tB on absent e2 gives
404. -/
theorem getExamById_classification_witness :
    getExamById examsDbEx none "e1" = Resp.forbidden "Acceso no autorizado" ∧
    getExamById examsDbEx (some "tB") "e1" =
      Resp.forbidden "Acceso no autorizado" ∧
    getExamById examsDbEx (some "tB") "e2" =
      Resp.notFound "Examen no encontrado" :=
  ⟨(getExamById_classification examsDbEx "e1" none).1 rfl,
   (getExamById_classification examsDbEx "e1" (some "tB")).2.1 "tB" ⟨"e1", "tA"⟩
     rfl (by decide) (by decide) (by decide),
   (getExamById_classification examsDbEx "e2" (some "tB")).2.2.1
     (by decide) (by decide)⟩

/-- C6 counterexample: the input `1.5` is accepted by `validateAttempts`
(its JS numeric value 3/2 is neither below 1 nor above 3) although it is
not an integer between 1 and 3 — refuting acceptance exactly on integers. -/
theorem validateAttempts_noninteger_cex :
    validateAttempts "1.5" = "" ∧ jsNumber "1.5" = some (3 / 2 : ℚ) ∧
      ¬ ∃ n : ℤ, (3 : ℚ) / 2 = (n : ℚ) ∧ 1 ≤ n ∧ n ≤ 3 := by
  have h1 : jsNumber "1.5"
      = some ((digitsVal ['1'] : ℚ)
          + (digitsVal ['5'] : ℚ) / (10 : ℚ) ^ (['5'] : List Char).length) := rfl
  rw [show digitsVal ['1'] = 1 from rfl, show digitsVal ['5'] = 5 from rfl,
    show (['5'] : List Char).length = 1 from rfl] at h1
  have h2 : jsNumber "1.5" = some (3 / 2 : ℚ) := by rw [h1]; norm_num
  refine ⟨?_, h2, ?_⟩
  · simp [validateAttempts, h2]
    norm_num
  · rintro ⟨n, hn, hn1, hn3⟩
    interval_cases n <;> norm_num at hn

/-- C6 amended: `validateAttempts` accepts exactly the non-blank inputs
whose JS numeric value lies between 1 and 3 inclusive (not necessarily an
integer); blank and non-numeric inputs share one rejection message while
below-1 and above-3 each have their own, the three messages pairwise
distinct; and step 0 of the wizard passes its gate exactly when subject,
difficulty and attempts are all present and this validation passes. -/
theorem validateAttempts_amended (s : String) (v : FormValues) :
    (validateAttempts s = "" ↔
      s ≠ "" ∧ ∃ q : ℚ, jsNumber s = some q ∧ 1 ≤ q ∧ q ≤ 3) ∧
    (s = "" ∨ jsNumber s = none →
      validateAttempts s = "Debes ingresar un número de intentos.") ∧
    (∀ q : ℚ, s ≠ "" → jsNumber s = some q → q < 1 →
      validateAttempts s = "El número de intentos debe ser al menos 1.") ∧
    (∀ q : ℚ, s ≠ "" → jsNumber s = some q → 3 < q →
      validateAttempts s = "El número de intentos no puede ser mayor a 3.") ∧
    ((("Debes ingresar un número de intentos." : String) ≠
        "El número de intentos debe ser al menos 1.") ∧
      (("Debes ingresar un número de intentos." : String) ≠
        "El número de intentos no puede ser mayor a 3.") ∧
      (("El número de intentos debe ser al menos 1." : String) ≠
        "El número de intentos no puede ser mayor a 3.")) ∧
    (validStep 0 v = true ↔
      v.subject ≠ "" ∧ v.difficulty ≠ "" ∧ v.attempts ≠ "" ∧
        validateAttempts v.attempts = "") := by
  refine ⟨?_, ?_, ?_, ?_, ⟨by decide, by decide, by decide⟩, ?_⟩
  · by_cases hs : s = ""
    · subst hs
      simp [validateAttempts]
    · cases hj : jsNumber s with
      | none => simp [validateAttempts, hs, hj]
      | some q =>
          have hcond : ((s == "") || (jsNumber s).isNone) = false := by
            simp [hs, hj]
          simp only [validateAttempts, hcond, Bool.false_eq_true, if_false,
            hj, Option.getD_some, Option.some.injEq]
          by_cases hq1 : q < 1
          · rw [if_pos hq1]
            simp [hs]
            intro h1
            linarith
          · rw [if_neg hq1]
            by_cases hq3 : q > 3
            · rw [if_pos hq3]
              simp [hs]
              intro h1
              linarith
            · rw [if_neg hq3]
              simp [hs]
              constructor <;> linarith
  · intro h
    rcases h with hs | hj
    · subst hs
      simp [validateAttempts]
    · simp [validateAttempts, hj]
  · intro q hs hj hq1
    have hcond : ((s == "") || (jsNumber s).isNone) = false := by
      simp [hs, hj]
    simp [validateAttempts, hcond, hj, hq1, hs]
  · intro q hs hj hq3
    have hcond : ((s == "") || (jsNumber s).isNone) = false := by
      simp [hs, hj]
    have hq1 : ¬ q < 1 := by
      push_neg
      linarith
    simp [validateAttempts, hcond, hj, hq1, hq3, hs]
  · simp [validStep, and_assoc]

/-- Concrete valid step-0 form values used by C6's and C9's witnesses. -/
def exFormValues : FormValues :=
  { subject := "Algoritmica 1", difficulty := "medio", attempts := "2"
    multipleChoice := "1", trueFalse := "0", analysis := "0", openEnded := "0"
    timeMinutes := 45, reference := "", errTimeMinutes := "" }

/-- C6 amended witness: blank, 0, 4 are rejected with their respective
messages, and step 0 passes on subject/difficulty present with attempts 2. -/
theorem validateAttempts_amended_witness :
    validateAttempts "" = "Debes ingresar un número de intentos." ∧
    validateAttempts "0" = "El número de intentos debe ser al menos 1." ∧
    validateAttempts "4" = "El número de intentos no puede ser mayor a 3." ∧
    validStep 0 exFormValues = true := by
  have h0 : jsNumber "0" = some ((digitsVal ['0'] : ℚ)) := rfl
  rw [show digitsVal ['0'] = 0 from rfl] at h0
  have h4 : jsNumber "4" = some ((digitsVal ['4'] : ℚ)) := rfl
  rw [show digitsVal ['4'] = 4 from rfl] at h4
  have h2 : jsNumber "2" = some ((digitsVal ['2'] : ℚ)) := rfl
  rw [show digitsVal ['2'] = 2 from rfl] at h2
  refine ⟨(validateAttempts_amended "" exFormValues).2.1 (Or.inl rfl),
    (validateAttempts_amended "0" exFormValues).2.2.1 0 (by decide)
      (by exact_mod_cast h0) (by norm_num),
    (validateAttempts_amended "4" exFormValues).2.2.2.1 4 (by decide)
      (by exact_mod_cast h4) (by norm_num),
    (validateAttempts_amended "2" exFormValues).2.2.2.2.2.mpr
      ⟨by decide, by decide, by decide, ?_⟩⟩
  exact (validateAttempts_amended "2" exFormValues).1.mpr
    ⟨by decide, 2, by exact_mod_cast h2, by norm_num, by norm_num⟩

/-- The id coming out of the collision loop is never one already used. -/
theorem freshen_not_mem_of_le (suf : ℕ → String) (used : List String) :
    ∀ (n : ℕ) (id : String) (k : ℕ),
      used.countP (fun s => decide (id.length ≤ s.length)) ≤ n →
      (freshen suf used id k).1 ∉ used := by
  intro n
  induction n with
  | zero =>
    intro id k hn
    rw [freshen]
    split
    · rename_i h
      exfalso
      have hpos : 0 < used.countP (fun s => decide (id.length ≤ s.length)) :=
        List.countP_pos_iff.mpr ⟨id, h, by simp⟩
      omega
    · rename_i h
      simpa using h
  | succ n ih =>
    intro id k hn
    rw [freshen]
    split
    · rename_i h
      apply ih
      have hlt := freshen_measure_lt suf used id k h
      omega
    · rename_i h
      simpa using h

/-- The id coming out of the collision loop is never one already used. -/
theorem freshen_not_mem (suf : ℕ → String) (used : List String) (id : String)
    (k : ℕ) : (freshen suf used id k).1 ∉ used :=
  freshen_not_mem_of_le suf used _ id k le_rfl

/-- Without a collision the candidate id is used unchanged, so a question
lacking an id keeps its synthesized `q_ts_kind_index` base. -/
theorem freshen_no_collision (suf : ℕ → String) (used : List String)
    (id : String) (k : ℕ) (h : id ∉ used) : freshen suf used id k = (id, k) := by
  rw [freshen]
  simp [h]

/-- The normalisation loop yields ids that avoid the incoming used set and
are pairwise distinct. -/
theorem normalizeQs_spec (suf : ℕ → String) (ts : ℕ) :
    ∀ (qs : List RawQuestion) (used : List String) (i k : ℕ),
      (∀ x ∈ normalizeQs suf ts used i k qs, x ∉ used) ∧
        (normalizeQs suf ts used i k qs).Nodup := by
  intro qs
  induction qs with
  | nil =>
    intro used i k
    simp [normalizeQs]
  | cons q qs ih =>
    intro used i k
    simp only [normalizeQs]
    obtain ⟨hnotin, hnd⟩ :=
      ih ((freshen suf used
            (q.id.getD (synthId ts (q.qtype.getD "open_analysis") i)) k).1 :: used)
        (i + 1)
        (freshen suf used
          (q.id.getD (synthId ts (q.qtype.getD "open_analysis") i)) k).2
    constructor
    · intro x hx
      rcases List.mem_cons.mp hx with rfl | hx'
      · exact freshen_not_mem suf used _ k
      · intro hxu
        exact hnotin x hx' (List.mem_cons_of_mem _ hxu)
    · refine List.nodup_cons.mpr ⟨?_, hnd⟩
      intro hmem
      exact hnotin _ hmem (List.mem_cons_self _ _)

/-- A quick-save body whose object-valued `content` carries two questions
with the same id `a`. -/
def dupContentBody : QuickSaveBody :=
  { title := none, courseId := some "c1", teacherId := some "t1"
    questions := none
    content := some ⟨some [⟨some "a", some "true_false", none⟩,
      ⟨some "a", some "true_false", none⟩]⟩
    subject := none, difficulty := none }

/-- C7 counterexample: a quick-save payload carrying an object-valued
`content` is persisted verbatim, bypassing normalisation — with two
questions of id `a` inside `content.questions`, the persisted question
list carries the duplicate identity twice, refuting pairwise
distinctness. -/
theorem quickSave_duplicate_ids_cex :
    ((quickSave [⟨"c1", "t1", 0⟩] (fun _ => "ab") 5 7 dupContentBody).2.map
        (fun d => persistedIds d.content)) = some [some "a", some "a"] ∧
      ¬ ([some "a", some "a"] : List (Option String)).Nodup := by
  constructor
  · decide
  · decide

/-- C7 amended: when the payload does not carry an object-valued `content`,
the persisted question list is the normalized one and its identities are
pairwise distinct; a question lacking an id gets the synthesized
`q_timestamp_kind_index` base, used unchanged unless already taken, and
collisions are resolved by appending suffixes until unused (whatever the
random suffixes are).  With an object-valued `content` the body's content
is persisted verbatim and normalization is bypassed. -/
theorem quickSave_normalized_ids_nodup
    (db : List Course) (suf : ℕ → String) (ts now : ℕ) (body : QuickSaveBody)
    (hc : body.content = none) :
    (∀ r d, quickSave db suf ts now body = (r, some d) →
      persistedIds d.content =
          (normalizeQs suf ts [] 0 0 (body.questions.getD [])).map some ∧
        (persistedIds d.content).Nodup) ∧
    (∀ used base k, base ∉ used → freshen suf used base k = (base, k)) ∧
    (∀ (q : RawQuestion) (i : ℕ), q.id = none →
      q.id.getD (synthId ts (q.qtype.getD "open_analysis") i) =
        synthId ts (q.qtype.getD "open_analysis") i) ∧
    ∀ qs used i k, (normalizeQs suf ts used i k qs).Nodup := by
  refine ⟨?_, fun used base k h => freshen_no_collision suf used base k h,
    fun q i h => by rw [h, Option.getD_none],
    fun qs used i k => (normalizeQs_spec suf ts qs used i k).2⟩
  · intro r d hqs
    have hnodup : (normalizeQs suf ts [] 0 0 (body.questions.getD [])).Nodup :=
      (normalizeQs_spec suf ts (body.questions.getD []) [] 0 0).2
    have hraw : (match body.questions with
        | some qs => qs
        | none => ([] : List RawQuestion)) = body.questions.getD [] := by
      cases body.questions <;> rfl
    have hd : d.content =
        PersistedContent.built (body.subject.getD "Tema general")
          (body.difficulty.getD "medio") now
          (normalizeQs suf ts [] 0 0 (body.questions.getD [])) := by
      unfold quickSave at hqs
      rcases htc : truthyOpt body.courseId with _ | _
      · rw [htc] at hqs
        simp only [Bool.false_eq_true, if_false] at hqs
        rcases hff : findFirstByCreatedAt db with _ | fc
        · rw [hff] at hqs
          simp at hqs
        · rw [hff] at hqs
          simp only [hc] at hqs
          simp only [Prod.mk.injEq, Option.some.injEq] at hqs
          rw [← hqs.2, hraw]
      · rw [htc] at hqs
        simp only [if_true] at hqs
        simp only [hc] at hqs
        simp only [Prod.mk.injEq, Option.some.injEq] at hqs
        rw [← hqs.2, hraw]
    rw [hd]
    refine ⟨rfl, ?_⟩
    simp only [persistedIds]
    exact hnodup.map (fun a b h => Option.some_injective _ h)

/-- A quick-save body with no `content` and two id-less questions whose
synthesized bases coincide only if timestamps/indices do (they do not). -/
def idlessBody : QuickSaveBody :=
  { title := none, courseId := some "c1", teacherId := some "t1"
    questions := some [⟨none, some "true_false", none⟩,
      ⟨none, some "true_false", none⟩]
    content := none, subject := none, difficulty := none }

/-- C7 amended witness: on a body with no `content` and two id-less
questions, quick-save persists two distinct synthesized ids. -/
theorem quickSave_normalized_ids_nodup_witness :
    persistedIds (PersistedContent.built "Tema general" "medio" 7
        (normalizeQs (fun _ => "ab") 5 [] 0 0 (idlessBody.questions.getD []))) =
      [some "q_5_true_false_0", some "q_5_true_false_1"] ∧
    (persistedIds (PersistedContent.built "Tema general" "medio" 7
        (normalizeQs (fun _ => "ab") 5 [] 0 0
          (idlessBody.questions.getD [])))).Nodup := by
  have happ := (quickSave_normalized_ids_nodup [⟨"c1", "t1", 0⟩] (fun _ => "ab")
    5 7 idlessBody rfl).1
  have hnorm : normalizeQs (fun _ => "ab") 5 [] 0 0 (idlessBody.questions.getD [])
      = ["q_5_true_false_0", "q_5_true_false_1"] := by
    rw [show idlessBody.questions.getD [] = [⟨none, some "true_false", none⟩,
      ⟨none, some "true_false", none⟩] from rfl]
    simp only [normalizeQs]
    rw [freshen_no_collision _ _ _ _ (by decide),
      freshen_no_collision _ _ _ _ (by decide)]
    decide
  obtain ⟨heq, hnd⟩ := happ (Resp.success "Quick exam saved")
    { title := "Examen", status := "Guardado"
      content := PersistedContent.built "Tema general" "medio" 7
        (normalizeQs (fun _ => "ab") 5 [] 0 0 (idlessBody.questions.getD []))
      courseId := "c1", teacherId := some "t1" } rfl
  constructor
  · rw [hnorm]
    decide
  · exact hnd

/-- The fallback query returns a member of the course table whose creation
timestamp is minimal. -/
theorem findFirstByCreatedAt_min :
    ∀ (db : List Course), db ≠ [] →
      ∃ c, findFirstByCreatedAt db = some c ∧ c ∈ db ∧
        ∀ c' ∈ db, c.createdAt ≤ c'.createdAt := by
  intro db
  induction db with
  | nil => intro h; exact absurd rfl h
  | cons c cs ih =>
    intro _
    by_cases hcs : cs = []
    · subst hcs
      exact ⟨c, by simp [findFirstByCreatedAt], by simp, by simp⟩
    · obtain ⟨b, hb, hmem, hmin⟩ := ih hcs
      by_cases hle : c.createdAt ≤ b.createdAt
      · refine ⟨c, ?_, List.mem_cons_self _ _, ?_⟩
        · simp [findFirstByCreatedAt, hb, hle]
        · intro c' hc'
          rcases List.mem_cons.mp hc' with rfl | h'
          · exact le_refl _
          · exact le_trans hle (hmin c' h')
      · refine ⟨b, ?_, List.mem_cons_of_mem _ hmem, ?_⟩
        · simp [findFirstByCreatedAt, hb, hle]
        · intro c' hc'
          rcases List.mem_cons.mp hc' with rfl | h'
          · exact le_of_not_le hle
          · exact hmin c' h'

/-- C8: for every quick-save request without a courseId — when no course
exists anywhere, the controller answers 400 and persists nothing;
otherwise it persists a record whose courseId is the course with the
earliest creation timestamp, borrowing that course's teacherId when the
payload has none (and the course's is non-empty). -/
theorem quickSave_course_fallback
    (db : List Course) (suf : ℕ → String) (ts now : ℕ) (body : QuickSaveBody)
    (hno : body.courseId = none) :
    (db = [] → quickSave db suf ts now body =
      (Resp.badRequest
        "No hay courseId y no existe ningún Curso en la base. Crea un curso o envía courseId.",
        none)) ∧
    (db ≠ [] → ∃ c, c ∈ db ∧ (∀ c' ∈ db, c.createdAt ≤ c'.createdAt) ∧
      ∃ d, (quickSave db suf ts now body).2 = some d ∧ d.courseId = c.id ∧
        (truthyOpt body.teacherId = false → c.teacherId ≠ "" →
          d.teacherId = some c.teacherId)) := by
  have htc : truthyOpt body.courseId = false := by rw [hno]; rfl
  constructor
  · intro hdb
    subst hdb
    unfold quickSave
    rw [htc]
    simp [findFirstByCreatedAt]
  · intro hdb
    obtain ⟨c, hfind, hmem, hmin⟩ := findFirstByCreatedAt_min db hdb
    refine ⟨c, hmem, hmin, ?_⟩
    unfold quickSave
    rw [htc]
    simp only [Bool.false_eq_true, if_false, hfind]
    refine ⟨_, rfl, rfl, ?_⟩
    intro htid hne
    have hTID : (if truthyOpt body.teacherId = false ∧ c.teacherId ≠ "" then
        some c.teacherId else body.teacherId) = some c.teacherId :=
      if_pos ⟨htid, hne⟩
    rw [hTID]
    have htr : truthyOpt (some c.teacherId) = true := by
      simp [truthyOpt, hne]
    rw [if_pos htr]

/-- A quick-save body with neither courseId nor teacherId. -/
def noCourseBody : QuickSaveBody :=
  { title := none, courseId := none, teacherId := none
    questions := some [⟨none, some "true_false", none⟩]
    content := none, subject := none, difficulty := none }

/-- Two courses, c1 created before c2. -/
def coursesDbEx : List Course := [⟨"c2", "t2", 9⟩, ⟨"c1", "t1", 3⟩]

/-- C8 witness: with no course the request is rejected; with courses c2
(created at 9) and c1 (created at 3), the fallback picks the earliest. -/
theorem quickSave_course_fallback_witness :
    quickSave [] (fun _ => "ab") 5 7 noCourseBody =
      (Resp.badRequest
        "No hay courseId y no existe ningún Curso en la base. Crea un curso o envía courseId.",
        none) ∧
    ∃ c, c ∈ coursesDbEx ∧ (∀ c' ∈ coursesDbEx, c.createdAt ≤ c'.createdAt) ∧
      ∃ d, (quickSave coursesDbEx (fun _ => "ab") 5 7 noCourseBody).2 = some d ∧
        d.courseId = c.id ∧
        (truthyOpt noCourseBody.teacherId = false → c.teacherId ≠ "" →
          d.teacherId = some c.teacherId) :=
  ⟨(quickSave_course_fallback [] (fun _ => "ab") 5 7 noCourseBody rfl).1 rfl,
   (quickSave_course_fallback coursesDbEx (fun _ => "ab") 5 7 noCourseBody
      rfl).2 (by decide)⟩

/-- C9: the wizard step stays in {0, 1, 2} and moves linearly — starting at
0, an interaction raises the step only by exactly one, only below step 2
and only when the active step's gate holds (via the Siguiente button or a
form submission); it lowers the step only by exactly one via the Anterior
button, available only above step 0; any other interaction leaves it
unchanged. -/
theorem wizard_step_linear (s : WizardState) (e : WizardEvent)
    (hs : s.step ≤ 2) :
    (wizardStep s e).step ≤ 2 ∧
    ((wizardStep s e).step = s.step + 1 →
      s.step < 2 ∧ validStep s.step s.values = true ∧
        (e = WizardEvent.siguiente ∨ e = WizardEvent.submitForm)) ∧
    ((wizardStep s e).step < s.step →
      e = WizardEvent.anterior ∧ 0 < s.step ∧
        (wizardStep s e).step = s.step - 1) ∧
    ((wizardStep s e).step = s.step + 1 ∨ (wizardStep s e).step = s.step ∨
      (0 < s.step ∧ (wizardStep s e).step = s.step - 1)) ∧
    initialStep = 0 := by
  cases e with
  | siguiente =>
    by_cases h : s.step < 2 ∧ validStep s.step s.values = true
    · have hred : (wizardStep s WizardEvent.siguiente).step = s.step + 1 := by
        simp [wizardStep, h]
      rw [hred]
      exact ⟨by omega, fun _ => ⟨h.1, h.2, Or.inl rfl⟩,
        fun hlt => absurd hlt (by omega), Or.inl rfl, rfl⟩
    · have hred : (wizardStep s WizardEvent.siguiente).step = s.step := by
        simp [wizardStep, h]
      rw [hred]
      exact ⟨hs, fun heq => absurd heq (by omega),
        fun hlt => absurd hlt (by omega), Or.inr (Or.inl rfl), rfl⟩
  | anterior =>
    by_cases h : 0 < s.step
    · have hred : (wizardStep s WizardEvent.anterior).step = s.step - 1 := by
        simp [wizardStep, h]
      rw [hred]
      exact ⟨by omega, fun heq => absurd heq (by omega),
        fun _ => ⟨rfl, h, rfl⟩, Or.inr (Or.inr ⟨h, rfl⟩), rfl⟩
    · have hred : (wizardStep s WizardEvent.anterior).step = s.step := by
        simp [wizardStep, h]
      rw [hred]
      exact ⟨hs, fun heq => absurd heq (by omega),
        fun hlt => absurd hlt (by omega), Or.inr (Or.inl rfl), rfl⟩
  | submitForm =>
    cases hv : touchAndValidate s.step s.values with
    | false =>
      have hred : (wizardStep s WizardEvent.submitForm).step = s.step := by
        simp [wizardStep, hv]
      rw [hred]
      exact ⟨hs, fun heq => absurd heq (by omega),
        fun hlt => absurd hlt (by omega), Or.inr (Or.inl rfl), rfl⟩
    | true =>
      by_cases h2 : s.step < 2
      · have hred : (wizardStep s WizardEvent.submitForm).step = s.step + 1 := by
          simp [wizardStep, hv, h2]
        rw [hred]
        exact ⟨by omega, fun _ => ⟨h2, hv, Or.inr rfl⟩,
          fun hlt => absurd hlt (by omega), Or.inl rfl, rfl⟩
      · have hred : (wizardStep s WizardEvent.submitForm).step = s.step := by
          simp [wizardStep, hv, h2]
        rw [hred]
        exact ⟨hs, fun heq => absurd heq (by omega),
          fun hlt => absurd hlt (by omega), Or.inr (Or.inl rfl), rfl⟩
  | edit v =>
    have hred : (wizardStep s (WizardEvent.edit v)).step = s.step := rfl
    rw [hred]
    exact ⟨hs, fun heq => absurd heq (by omega),
      fun hlt => absurd hlt (by omega), Or.inr (Or.inl rfl), rfl⟩

/-- C9 witness: from step 0 with valid general data, an interaction keeps
the step within bounds. -/
theorem wizard_step_linear_witness :
    (wizardStep ⟨0, exFormValues⟩ WizardEvent.siguiente).step ≤ 2 ∧
      (wizardStep ⟨2, exFormValues⟩ WizardEvent.anterior).step ≤ 2 :=
  ⟨(wizard_step_linear ⟨0, exFormValues⟩ WizardEvent.siguiente (by decide)).1,
   (wizard_step_linear ⟨2, exFormValues⟩ WizardEvent.anterior (by decide)).1⟩

/-- The raw form carrying a negative multiple-choice count. -/
def negCountForm : RawForm :=
  { subject := none, topic := none, difficulty := none
    multipleChoice := some "-2", trueFalse := none, analysis := none
    openEnded := none, reference := none }

/-- C10 counterexample: `Number('-2') || 0` keeps −2, so the built request
carries a negative distribution count — the counts are not coerced to
non-negative numbers. -/
theorem buildAiInput_negative_count_cex :
    (buildAiInputFromForm negCountForm).distribution.multiple_choice =
        some (-2 : ℚ) ∧
      ¬ (0 : ℚ) ≤ -2 := by
  have h1 : jsNumber "-2" = some (-(digitsVal ['2'] : ℚ)) := rfl
  rw [show digitsVal ['2'] = 2 from rfl] at h1
  constructor
  · simp [buildAiInputFromForm, numOrZero, negCountForm, h1]
  · norm_num

/-- C10 amended: every AI request the client builds satisfies the
distribution-sum invariant by construction — `buildAiInputFromForm` sets
`totalQuestions` to exactly the sum of the four distribution counts, each
count read as a number with absent or non-numeric fields defaulting to 0
(negative numeric inputs pass through unchanged, so the counts are not
necessarily non-negative); the single-question regeneration request has
`totalQuestions = 1` and the one-hot distribution of the question's kind,
which sums to 1 as well. -/
theorem aiInput_sum_invariant (raw : RawForm) (t : QKind) :
    sumDistribution (some (buildAiInputFromForm raw).distribution) =
      (buildAiInputFromForm raw).totalQuestions ∧
    (raw.multipleChoice = none →
      (buildAiInputFromForm raw).distribution.multiple_choice = some 0) ∧
    (∀ s, raw.multipleChoice = some s → jsNumber s = none →
      (buildAiInputFromForm raw).distribution.multiple_choice = some 0) ∧
    (raw.trueFalse = none →
      (buildAiInputFromForm raw).distribution.true_false = some 0) ∧
    (raw.analysis = none →
      (buildAiInputFromForm raw).distribution.open_analysis = some 0) ∧
    (raw.openEnded = none →
      (buildAiInputFromForm raw).distribution.open_exercise = some 0) ∧
    (regenerateOneDto raw t).totalQuestions = 1 ∧
    sumDistribution (some (regenerateOneDto raw t).distribution) = 1 ∧
    (regenerateOneDto raw t).distribution.multiple_choice =
      some (if t = QKind.multiple_choice then 1 else 0) ∧
    (regenerateOneDto raw t).distribution.true_false =
      some (if t = QKind.true_false then 1 else 0) ∧
    (regenerateOneDto raw t).distribution.open_analysis =
      some (if t = QKind.open_analysis then 1 else 0) ∧
    (regenerateOneDto raw t).distribution.open_exercise =
      some (if t = QKind.open_exercise then 1 else 0) := by
  refine ⟨?_, ?_, ?_, ?_, ?_, ?_, rfl, ?_, rfl, rfl, rfl, rfl⟩
  · simp [buildAiInputFromForm, sumDistribution]
  · intro h
    simp [buildAiInputFromForm, numOrZero, h]
  · intro s h hj
    simp [buildAiInputFromForm, numOrZero, h, hj]
  · intro h
    simp [buildAiInputFromForm, numOrZero, h]
  · intro h
    simp [buildAiInputFromForm, numOrZero, h]
  · intro h
    simp [buildAiInputFromForm, numOrZero, h]
  · cases t <;> simp [regenerateOneDto, sumDistribution]

/-- C10 amended witness: on the form with the −2 count, the built request
still sums to its own total, and the regeneration request totals 1. -/
theorem aiInput_sum_invariant_witness :
    sumDistribution (some (buildAiInputFromForm negCountForm).distribution) =
      (buildAiInputFromForm negCountForm).totalQuestions ∧
    (buildAiInputFromForm negCountForm).distribution.true_false = some 0 ∧
    (regenerateOneDto negCountForm QKind.true_false).totalQuestions = 1 ∧
    sumDistribution
      (some (regenerateOneDto negCountForm QKind.true_false).distribution) = 1 :=
  ⟨(aiInput_sum_invariant negCountForm QKind.true_false).1,
   (aiInput_sum_invariant negCountForm QKind.true_false).2.2.2.1 rfl,
   (aiInput_sum_invariant negCountForm QKind.true_false).2.2.2.2.2.2.1,
   (aiInput_sum_invariant negCountForm QKind.true_false).2.2.2.2.2.2.2.1⟩

end LearningAgent
